import Mathlib

/-!
# Verification of the xsynth-clib handle-lifecycle and event-codec layer

Shallow embedding of the C-ABI façade of the XSynth MIDI synthesizer
(`src/lib.rs`, `src/utils.rs`, `src/soundfont.rs`, `src/realtime.rs`,
`src/handles.rs`).  The sources mix several historical ABI revisions:

* `lib.rs` holds the integer-id channel-group registry (`GROUPS`,
  `ID_COUNTER`, `next_id`) together with an older inline event
  conversion in `XSynth_ChannelGroup_SendEvent`;
* `utils.rs` holds the event codec `convert_event` and the soundfont id
  resolver `sfids_to_vec` used by the newer `realtime.rs` surface;
* `soundfont.rs` holds the soundfont registry (`SOUNDFONTS`,
  `ID_COUNTER`, `next_id` bounded by `MAX_ITEMS`).

Modelling conventions:
* A Rust `panic!` aborts the process; it is modelled as the
  `Except.error msg` outcome of the embedded operation (carrying the
  panic message).  `Except.ok` is the only outcome visible to a caller
  that keeps running.
* Engine resources (`ChannelGroup`, `RealtimeSynth`,
  `Arc<dyn SoundfontBase>`) are opaque to this layer; they are modelled
  as `Nat` tokens.  Cloning an `Arc` shares the token.
* Machine integers are modelled as `Nat`.  `x & 255` is `x % 256`,
  `x >> 8` is `x / 256`, and a `as u8` cast is `% 256`.  Identifiers are
  `u64`; no arithmetic in this layer overflows `u64` (the counters are
  only incremented while strictly below their maximum), so no `% 2^64`
  is needed.
* The `f32` values produced by the codec are modelled as `ℚ`.  This is
  exact for every operation the codec performs: the operands are
  integers of magnitude at most 16384 (exactly representable in `f32`),
  `clamp` and subtraction of such integers are exact, division by the
  powers of two 8192 and 4096 is an exponent shift, and the final
  `* 100.0` of the fine-tune case multiplies a dyadic rational `k/4096`
  with `|k| ≤ 4096`, whose product `25k/1024` has a numerator below
  `2^24` and is therefore exactly representable.  The one lossy cast in
  the sources — `params as f32` on a `u32` in the legacy
  `XSynth_ChannelGroup_SendEvent` pitch case — is kept as the raw
  integer instead (constructor `ControlEventM.pitchBend`), since the
  cast is value-preserving below `2^24` and no statement here inspects
  that payload numerically.
-/

/-- Modelled from the spec: the crate declares `mod consts;` in `lib.rs`
but `consts.rs` is not among the provided sources.  The spec's event
table (§4.2) lists exactly ten event kinds in this order; the constants
are given the distinct values 0–9, and nothing below depends on anything
but their distinctness. -/
def MIDI_EVENT_NOTEON : Nat := 0

/-- Modelled from the spec: see `MIDI_EVENT_NOTEON`. -/
def MIDI_EVENT_NOTEOFF : Nat := 1

/-- Modelled from the spec: see `MIDI_EVENT_NOTEON`. -/
def MIDI_EVENT_ALLNOTESOFF : Nat := 2

/-- Modelled from the spec: see `MIDI_EVENT_NOTEON`. -/
def MIDI_EVENT_ALLNOTESKILLED : Nat := 3

/-- Modelled from the spec: see `MIDI_EVENT_NOTEON`. -/
def MIDI_EVENT_RESETCONTROL : Nat := 4

/-- Modelled from the spec: see `MIDI_EVENT_NOTEON`. -/
def MIDI_EVENT_CONTROL : Nat := 5

/-- Modelled from the spec: see `MIDI_EVENT_NOTEON`. -/
def MIDI_EVENT_PROGRAMCHANGE : Nat := 6

/-- Modelled from the spec: see `MIDI_EVENT_NOTEON`. -/
def MIDI_EVENT_PITCH : Nat := 7

/-- Modelled from the spec: see `MIDI_EVENT_NOTEON`. -/
def MIDI_EVENT_FINETUNE : Nat := 8

/-- Modelled from the spec: see `MIDI_EVENT_NOTEON`. -/
def MIDI_EVENT_COARSETUNE : Nat := 9

/-- The ten defined event-kind values (spec §4.2). -/
def midiEventKinds : List Nat :=
  [MIDI_EVENT_NOTEON, MIDI_EVENT_NOTEOFF, MIDI_EVENT_ALLNOTESOFF,
   MIDI_EVENT_ALLNOTESKILLED, MIDI_EVENT_RESETCONTROL, MIDI_EVENT_CONTROL,
   MIDI_EVENT_PROGRAMCHANGE, MIDI_EVENT_PITCH, MIDI_EVENT_FINETUNE,
   MIDI_EVENT_COARSETUNE]

/-- Modelled from the spec: `MAX_ITEMS` lives in the missing `consts.rs`.
The doc comment of `XSynth_Soundfont_LoadNew` fixes it: "Max: 65.535
soundfonts", i.e. `u16::MAX`. -/
def MAX_ITEMS : Nat := 65535

/-- Value of `c_ulong::MAX` on the 64-bit targets the crate supports
(`c_ulong = u64`). -/
def c_ulong_MAX : Nat := 2 ^ 64 - 1

/-- Embeds `xsynth_core::channel::ControlEvent`, covering the variants the
embedded revisions construct. -/
inductive ControlEventM where
  /-- `ControlEvent::Raw(controller, value)` -/
  | raw (controller value : Nat)
  /-- legacy `ControlEvent::PitchBend(params as f32)`; the raw integer is
  kept, see the module comment -/
  | pitchBend (raw : Nat)
  /-- `ControlEvent::PitchBendValue(f32)` -/
  | pitchBendValue (v : ℚ)
  /-- `ControlEvent::FineTune(f32)` -/
  | fineTune (cents : ℚ)
  /-- `ControlEvent::CoarseTune(f32)` -/
  | coarseTune (semitones : ℚ)
  deriving DecidableEq, Repr

/-- Embeds `xsynth_core::channel::ChannelAudioEvent`. -/
inductive ChannelAudioEventM where
  | noteOn (key vel : Nat)
  | noteOff (key : Nat)
  | allNotesKilled
  | allNotesOff
  | resetControl
  | programChange (program : Nat)
  | control (ev : ControlEventM)
  deriving DecidableEq, Repr

/-- Embeds `xsynth_core::channel::ChannelConfigEvent`; the soundfont list holds
the opaque tokens of the shared soundfont resources. -/
inductive ChannelConfigEventM where
  | setSoundfonts (sfs : List Nat)
  | setLayerCount (layers : Option Nat)
  deriving DecidableEq, Repr

/-- Embeds `SynthEvent` (re-exported by both `xsynth_realtime` and
`xsynth_core::channel_group`). -/
inductive SynthEventM where
  | channel (channel : Nat) (ev : ChannelAudioEventM)
  | channelConfig (ev : ChannelConfigEventM)
  deriving DecidableEq, Repr

/-- Embeds `utils.rs::convert_event(channel: u32, event: u16, params: u16)`.
The Rust `match` panics (modelled as `Except.error`) on any event value
outside the ten defined kinds.  `params` is a `u16`, so callers satisfy
`params < 65536`; the `u8` truncations (`as u8`) are mirrored by
`% 256`, and `.clamp(0, 127)` on an unsigned byte is `min · 127`. -/
def convert_event (channel : Nat) (event : Nat) (params : Nat) :
    Except String SynthEventM :=
  if event = MIDI_EVENT_NOTEON then
    .ok (.channel channel (.noteOn (params % 256) (params / 256 % 256)))
  else if event = MIDI_EVENT_NOTEOFF then
    .ok (.channel channel (.noteOff (params % 256)))
  else if event = MIDI_EVENT_ALLNOTESKILLED then
    .ok (.channel channel .allNotesKilled)
  else if event = MIDI_EVENT_ALLNOTESOFF then
    .ok (.channel channel .allNotesOff)
  else if event = MIDI_EVENT_RESETCONTROL then
    .ok (.channel channel .resetControl)
  else if event = MIDI_EVENT_PROGRAMCHANGE then
    .ok (.channel channel (.programChange (min (params % 256) 127)))
  else if event = MIDI_EVENT_CONTROL then
    .ok (.channel channel
      (.control (.raw (min (params % 256) 127) (min (params / 256 % 256) 127))))
  else if event = MIDI_EVENT_PITCH then
    .ok (.channel channel
      (.control (.pitchBendValue ((max 0 (min (params : ℚ) 16384) - 8192) / 8192))))
  else if event = MIDI_EVENT_FINETUNE then
    .ok (.channel channel
      (.control (.fineTune ((max 0 (min (params : ℚ) 8192) - 4096) / 4096 * 100))))
  else if event = MIDI_EVENT_COARSETUNE then
    .ok (.channel channel
      (.control (.coarseTune (max 0 (min (params : ℚ) 128) - 64))))
  else
    .error "Unexpected MIDI event."

/-- Embeds `utils.rs::convert_layer_count`. -/
def convert_layer_count (layers : Nat) : Option Nat :=
  match layers with
  | 0 => none
  | _ => some layers

/-- Embeds the `soundfont.rs::Soundfont` registry entry (also used by the inlined
`SOUNDFONTS` lookups of `lib.rs`): an id paired with the opaque token of
the shared `Arc<dyn SoundfontBase>`. -/
structure Soundfont where
  id : Nat
  soundfont : Nat
  deriving DecidableEq, Repr

/-- Embeds `utils.rs::sfids_to_vec`: resolves each id against the `SOUNDFONTS`
registry, cloning the shared soundfont; an unknown id panics
("Soundfont does not exist.").  The Rust iterator panics at the first
missing id, which is exactly the first-error semantics of `mapM`. -/
def sfids_to_vec (soundfonts : List Soundfont) (ids : List Nat) :
    Except String (List Nat) :=
  ids.mapM (fun i =>
    match soundfonts.find? (fun sf => sf.id == i) with
    | some sf => .ok sf.soundfont
    | none => .error "Soundfont does not exist.")

/-- Embeds `lib.rs::XSynthGroup`: registry entry of the `GROUPS` static — an id
paired with the opaque token of the owned engine `ChannelGroup`. -/
structure XSynthGroup where
  id : Nat
  group : Nat
  deriving DecidableEq, Repr

/-- The mutable statics of `lib.rs`: `GROUPS` and `ID_COUNTER`. -/
structure LibState where
  groups : List XSynthGroup
  idCounter : Nat
  deriving DecidableEq, Repr

/-- Embeds `lib.rs::next_id`.  Returns the issued id together with the new
value of `ID_COUNTER`.  Mirrors the source exactly: panic (error) when
`GROUPS.len() >= c_ulong::MAX`; once the counter has saturated, scan
`0..GROUPS.len()` for a free id and — when the scan finds none — fall
through to the trailing `0` expression; otherwise take the counter and
increment it. -/
def lib_next_id (groups : List XSynthGroup) (counter : Nat) :
    Except String (Nat × Nat) :=
  if groups.length ≥ c_ulong_MAX then
    .error "Max number of groups reached, cannot create more."
  else if counter ≥ c_ulong_MAX then
    match (List.range groups.length).find?
        (fun i => !(groups.any (fun g => g.id == i))) with
    | some i => .ok (i, counter)
    | none => .ok (0, counter)
  else
    .ok (counter, counter + 1)

/-- Embeds `lib.rs::XSynth_ChannelGroup_Create`.  Building the engine
`ChannelGroup` from the validated options is the external factory; its
result is the opaque token `engineGroup`.  The function then allocates
an id, pushes the entry and returns the id. -/
def XSynth_ChannelGroup_Create (st : LibState) (engineGroup : Nat) :
    Except String (Nat × LibState) :=
  match lib_next_id st.groups st.idCounter with
  | .ok (id, counter) =>
      .ok (id, ⟨st.groups ++ [⟨id, engineGroup⟩], counter⟩)
  | .error e => .error e

/-- Embeds `lib.rs::XSynth_ChannelGroup_VoiceCount`.  The engine query
`ChannelGroup::voice_count` is the external parameter `voice_count`,
applied to the resolved group's token; an unknown id panics. -/
def XSynth_ChannelGroup_VoiceCount (groups : List XSynthGroup) (id : Nat)
    (voice_count : Nat → Nat) : Except String Nat :=
  match groups.find? (fun g => g.id == id) with
  | some g => .ok (voice_count g.group)
  | none => .error "Group does not exist."

/-- Embeds `lib.rs::XSynth_StreamParams` (C ABI struct). -/
structure XSynth_StreamParams where
  sample_rate : Nat
  audio_channels : Nat
  deriving DecidableEq, Repr

/-- Embeds `lib.rs::XSynth_ChannelGroup_GetStreamParams`.  The engine query
`ChannelGroup::stream_params` composed with the C-struct conversion is
the external parameter `stream_params`; an unknown id panics. -/
def XSynth_ChannelGroup_GetStreamParams (groups : List XSynthGroup)
    (id : Nat) (stream_params : Nat → XSynth_StreamParams) :
    Except String XSynth_StreamParams :=
  match groups.find? (fun g => g.id == id) with
  | some g => .ok (stream_params g.group)
  | none => .error "Group does not exist."

/-- Embeds `lib.rs::XSynth_ChannelGroup_SendEvent`.  This legacy revision does
its own inline conversion (no clamping, `params` is a `u32`, pitch is
forwarded raw) and — unlike `utils.rs::convert_event` — silently
`return`s on an unrecognized event value.  The result is `ok none` when
nothing was sent, and `ok (some (groupToken, event))` for the event
handed to `ChannelGroup::send_event` of the resolved group; an unknown
group id panics before the event value is examined. -/
def XSynth_ChannelGroup_SendEvent (groups : List XSynthGroup)
    (id channel event params : Nat) :
    Except String (Option (Nat × SynthEventM)) :=
  match groups.find? (fun g => g.id == id) with
  | none => .error "Group does not exist."
  | some g =>
    if event = MIDI_EVENT_NOTEON then
      .ok (some (g.group,
        .channel channel (.noteOn (params % 256) (params / 256 % 256))))
    else if event = MIDI_EVENT_NOTEOFF then
      .ok (some (g.group, .channel channel (.noteOff (params % 256))))
    else if event = MIDI_EVENT_ALLNOTESKILLED then
      .ok (some (g.group, .channel channel .allNotesKilled))
    else if event = MIDI_EVENT_ALLNOTESOFF then
      .ok (some (g.group, .channel channel .allNotesOff))
    else if event = MIDI_EVENT_RESETCONTROL then
      .ok (some (g.group, .channel channel .resetControl))
    else if event = MIDI_EVENT_PROGRAMCHANGE then
      .ok (some (g.group, .channel channel (.programChange (params % 256))))
    else if event = MIDI_EVENT_CONTROL then
      .ok (some (g.group,
        .channel channel (.control (.raw (params % 256) (params / 256 % 256)))))
    else if event = MIDI_EVENT_PITCH then
      .ok (some (g.group, .channel channel (.control (.pitchBend params))))
    else
      .ok none

/-- Embeds `lib.rs::XSynth_ChannelGroup_ReadSamples`.  A null buffer (`none`)
returns before anything else happens; otherwise the group is resolved
(unknown id panics) and the engine render call receives the resolved
group's token and the sample count.  The returned registry is the
(unchanged) `GROUPS` list, making the frame condition explicit. -/
def XSynth_ChannelGroup_ReadSamples (groups : List XSynthGroup)
    (id : Nat) (buffer : Option (List ℚ)) (length : Nat) :
    Except String (Option (Nat × Nat) × List XSynthGroup) :=
  match buffer with
  | none => .ok (none, groups)
  | some _ =>
    match groups.find? (fun g => g.id == id) with
    | none => .error "Group does not exist."
    | some g => .ok (some (g.group, length), groups)

/-- Embeds `lib.rs::XSynth_ChannelGroup_SetSoundfonts`.  The group is resolved
first (unknown group id panics), then each soundfont id is resolved
against `SOUNDFONTS` (unknown soundfont id panics), and the ordered list
of cloned soundfont tokens is sent as a `SetSoundfonts` config event to
the resolved group.  Neither registry is modified. -/
def XSynth_ChannelGroup_SetSoundfonts (groups : List XSynthGroup)
    (soundfonts : List Soundfont) (id : Nat) (sf_ids : List Nat) :
    Except String (Nat × SynthEventM) :=
  match groups.find? (fun g => g.id == id) with
  | none => .error "Group does not exist."
  | some g =>
    match sf_ids.mapM (fun i =>
        match soundfonts.find? (fun sf => sf.id == i) with
        | some sf => Except.ok sf.soundfont
        | none => Except.error "Soundfont does not exist.") with
    | .error e => .error e
    | .ok sfvec => .ok (g.group, .channelConfig (.setSoundfonts sfvec))

/-- Embeds `lib.rs::XSynth_ChannelGroup_ClearSoundfonts`: sends
`SetSoundfonts(Vec::new())` to the resolved group (unknown id
panics). -/
def XSynth_ChannelGroup_ClearSoundfonts (groups : List XSynthGroup)
    (id : Nat) : Except String (Nat × SynthEventM) :=
  match groups.find? (fun g => g.id == id) with
  | none => .error "Group does not exist."
  | some g => .ok (g.group, .channelConfig (.setSoundfonts []))

/-- Embeds `lib.rs::XSynth_ChannelGroup_Remove`:
`GROUPS.retain(|group| group.id != id)`. -/
def XSynth_ChannelGroup_Remove (groups : List XSynthGroup) (id : Nat) :
    List XSynthGroup :=
  groups.filter (fun g => g.id != id)

/-- Embeds `lib.rs::XSynth_ChannelGroup_RemoveAll`: `GROUPS.clear()`. -/
def XSynth_ChannelGroup_RemoveAll (_groups : List XSynthGroup) :
    List XSynthGroup :=
  []

/-- The mutable statics of `soundfont.rs`: `SOUNDFONTS` and its own
`ID_COUNTER`. -/
structure SfState where
  soundfonts : List Soundfont
  idCounter : Nat
  deriving DecidableEq, Repr

/-- Embeds `soundfont.rs::next_id`.  Returns `Err(())` when the registry
already holds `MAX_ITEMS` entries; once the counter has saturated, scan
the whole range `0..MAX_ITEMS` for a free id and fall through to
`Err(())` when none is free; otherwise take the counter and increment
it.  Returns the issued id together with the new `ID_COUNTER`. -/
def sf_next_id (soundfonts : List Soundfont) (counter : Nat) :
    Except Unit (Nat × Nat) :=
  if soundfonts.length ≥ MAX_ITEMS then
    .error ()
  else if counter ≥ MAX_ITEMS then
    match (List.range MAX_ITEMS).find?
        (fun i => !(soundfonts.any (fun g => g.id == i))) with
    | some i => .ok (i, counter)
    | none => .error ()
  else
    .ok (counter, counter + 1)

/-- Embeds `soundfont.rs::XSynth_Soundfont_LoadNew`.  The two external steps are
modelled as inputs: `pathOk` is whether `CStr::to_str` succeeds on the
given path (a failure panics "Error parsing soundfont path"), and
`loadResult` is the outcome of the external `SampleSoundfont::new`
factory — `none` for a parse failure (panics "Error loading soundfont"),
`some token` for the loaded soundfont.  On success the id is allocated
(`Err` panics with the capacity message) and the entry pushed. -/
def XSynth_Soundfont_LoadNew (st : SfState) (pathOk : Bool)
    (loadResult : Option Nat) : Except String (Nat × SfState) :=
  if !pathOk then
    .error "Error parsing soundfont path"
  else
    match loadResult with
    | none => .error "Error loading soundfont"
    | some sfToken =>
      match sf_next_id st.soundfonts st.idCounter with
      | .ok (id, counter) =>
          .ok (id, ⟨st.soundfonts ++ [⟨id, sfToken⟩], counter⟩)
      | .error _ =>
          .error "Max number of soundfonts reached, cannot create more."

/-- Embeds `soundfont.rs::XSynth_Soundfont_Remove`:
`SOUNDFONTS.write().unwrap().retain(|group| group.id != id)`. -/
def XSynth_Soundfont_Remove (soundfonts : List Soundfont) (id : Nat) :
    List Soundfont :=
  soundfonts.filter (fun sf => sf.id != id)

/-- Embeds `soundfont.rs::XSynth_Soundfont_RemoveAll`. -/
def XSynth_Soundfont_RemoveAll (_soundfonts : List Soundfont) :
    List Soundfont :=
  []

/-- Embeds `realtime.rs::XSynth_Realtime_SendEvent`.  The event is converted by
`utils.rs::convert_event` *before* the handle is dereferenced, so an
unknown event kind panics regardless of the handle; a null handle
(`none`) then panics in `Option::unwrap`.  On success the event goes to
`RealtimeSynth::send_event` of the handle's synth token. -/
def XSynth_Realtime_SendEvent (handle : Option Nat)
    (channel event params : Nat) : Except String (Nat × SynthEventM) :=
  match convert_event channel event params with
  | .error e => .error e
  | .ok ev =>
    match handle with
    | none => .error "called Option::unwrap on a None value"
    | some synth => .ok (synth, ev)

/-- Embeds `realtime.rs::XSynth_Realtime_SetSoundfonts`: resolves the soundfont
ids via `utils.rs::sfids_to_vec` (a stale id panics) *before*
dereferencing the handle, then sends `SetSoundfonts(list)` to the
handle's synth. -/
def XSynth_Realtime_SetSoundfonts (soundfonts : List Soundfont)
    (handle : Option Nat) (sf_ids : List Nat) :
    Except String (Nat × SynthEventM) :=
  match sfids_to_vec soundfonts sf_ids with
  | .error e => .error e
  | .ok sfvec =>
    match handle with
    | none => .error "called Option::unwrap on a None value"
    | some synth => .ok (synth, .channelConfig (.setSoundfonts sfvec))

/-- Embeds `realtime.rs::XSynth_Realtime_ClearSoundfonts`: sends
`SetSoundfonts(Vec::new())` to the handle's synth. -/
def XSynth_Realtime_ClearSoundfonts (handle : Option Nat) :
    Except String (Nat × SynthEventM) :=
  match handle with
  | none => .error "called Option::unwrap on a None value"
  | some synth => .ok (synth, .channelConfig (.setSoundfonts []))

/-- An operation on the channel-group registry of `lib.rs` (the create /
remove alphabet of the registry claims). -/
inductive LibOp where
  | create
  | remove (id : Nat)
  deriving DecidableEq, Repr

/-- One step of the channel-group registry.  A create that panics leaves
the registry as it was (the process dies before mutating it; modelling
the continuation conservatively keeps the state unchanged).  The engine
token of a created group is irrelevant to the registry and fixed to
`0`. -/
def libStep (st : LibState) : LibOp → LibState
  | .create =>
    match XSynth_ChannelGroup_Create st 0 with
    | .ok (_, st2) => st2
    | .error _ => st
  | .remove id => ⟨XSynth_ChannelGroup_Remove st.groups id, st.idCounter⟩

/-- Run a sequence of channel-group registry operations from the initial
state (`GROUPS` empty, `ID_COUNTER = 0`). -/
def libRun (ops : List LibOp) : LibState :=
  ops.foldl libStep ⟨[], 0⟩

/-- Runs `n` consecutive `XSynth_ChannelGroup_Create` calls from the initial
state, collecting the returned ids (a panicking create contributes
nothing). -/
def libCreateN : Nat → LibState × List Nat
  | 0 => (⟨[], 0⟩, [])
  | n + 1 =>
    match XSynth_ChannelGroup_Create (libCreateN n).1 0 with
    | .ok (id, st2) => (st2, (libCreateN n).2 ++ [id])
    | .error _ => libCreateN n

/-- An operation on the soundfont registry of `soundfont.rs`; the load
carries the outcomes of the two external steps (see
`XSynth_Soundfont_LoadNew`). -/
inductive SfOp where
  | load (pathOk : Bool) (loadResult : Option Nat)
  | remove (id : Nat)
  | removeAll
  deriving DecidableEq, Repr

/-- One step of the soundfont registry; a panicking load leaves the
registry as it was. -/
def sfStep (st : SfState) : SfOp → SfState
  | .load pathOk loadResult =>
    match XSynth_Soundfont_LoadNew st pathOk loadResult with
    | .ok (_, st2) => st2
    | .error _ => st
  | .remove id => ⟨XSynth_Soundfont_Remove st.soundfonts id, st.idCounter⟩
  | .removeAll => ⟨XSynth_Soundfont_RemoveAll st.soundfonts, st.idCounter⟩

/-- Run a sequence of soundfont registry operations from the initial
state (`SOUNDFONTS` empty, `ID_COUNTER = 0`). -/
def sfRun (ops : List SfOp) : SfState :=
  ops.foldl sfStep ⟨[], 0⟩

/-- Runs `n` consecutive successful-load `XSynth_Soundfont_LoadNew` calls from
the initial state (path parses, the external factory succeeds with token
`0`), collecting the returned ids (a panicking load contributes
nothing). -/
def sfLoadN : Nat → SfState × List Nat
  | 0 => (⟨[], 0⟩, [])
  | n + 1 =>
    match XSynth_Soundfont_LoadNew (sfLoadN n).1 true (some 0) with
    | .ok (id, st2) => (st2, (sfLoadN n).2 ++ [id])
    | .error _ => sfLoadN n

/-- Claim C4: for every 16-bit packed parameter `x`, the codec decodes a
PitchBend event to `(clamp(x,0,16384) - 8192) / 8192`, a value in
`[-1,1]`; raw 8192 decodes to 0, raw 0 to −1, and raw 16383 to
`8191/8192 ≈ 0.99988` (within `10⁻⁵` of `0.99988`). -/
theorem pitchbend_decode (x : Nat) (_hx : x < 65536) (ch : Nat) :
    convert_event ch MIDI_EVENT_PITCH x =
      .ok (.channel ch (.control (.pitchBendValue
        ((max 0 (min (x : ℚ) 16384) - 8192) / 8192)))) ∧
    (-1 : ℚ) ≤ (max 0 (min (x : ℚ) 16384) - 8192) / 8192 ∧
    (max 0 (min (x : ℚ) 16384) - 8192) / 8192 ≤ 1 ∧
    convert_event ch MIDI_EVENT_PITCH 8192 =
      .ok (.channel ch (.control (.pitchBendValue 0))) ∧
    convert_event ch MIDI_EVENT_PITCH 0 =
      .ok (.channel ch (.control (.pitchBendValue (-1)))) ∧
    convert_event ch MIDI_EVENT_PITCH 16383 =
      .ok (.channel ch (.control (.pitchBendValue (8191 / 8192)))) ∧
    |(8191 : ℚ) / 8192 - 99988 / 100000| < 1 / 100000 := by
  have h0 : (0 : ℚ) ≤ max 0 (min (x : ℚ) 16384) := le_max_left _ _
  have h1 : max 0 (min (x : ℚ) 16384) ≤ 16384 :=
    max_le (by norm_num) (min_le_right _ _)
  have hpitch : ∀ p : Nat, convert_event ch MIDI_EVENT_PITCH p =
      .ok (.channel ch (.control (.pitchBendValue
        ((max 0 (min (p : ℚ) 16384) - 8192) / 8192)))) := fun _ => rfl
  refine ⟨rfl, ?_, ?_, ?_, ?_, ?_, ?_⟩
  · rw [le_div_iff₀ (by norm_num : (0 : ℚ) < 8192)]
    linarith
  · rw [div_le_one (by norm_num : (0 : ℚ) < 8192)]
    linarith
  · rw [hpitch 8192]
    norm_num [min_def, max_def]
  · rw [hpitch 0]
    norm_num [min_def, max_def]
  · rw [hpitch 16383]
    norm_num [min_def, max_def]
  · rw [abs_sub_lt_iff]
    norm_num

/-- Witness for `pitchbend_decode` at the concrete raw value 8192. -/
theorem pitchbend_decode_witness :
    convert_event 0 MIDI_EVENT_PITCH 8192 =
      .ok (.channel 0 (.control (.pitchBendValue 0))) :=
  (pitchbend_decode 8192 (by decide) 0).2.2.2.1

/-- Claim C5: for every 16-bit packed parameter `x`, the codec decodes a
ControlChange event with the controller taken from the low byte and the
value from the high byte, each clamped to `[0,127]`; a high byte of 200
yields a value of 127. -/
theorem controlchange_decode (x ch : Nat) (hx : x < 65536) :
    convert_event ch MIDI_EVENT_CONTROL x =
      .ok (.channel ch (.control
        (.raw (min (x % 256) 127) (min (x / 256 % 256) 127)))) ∧
    x / 256 % 256 = x / 256 ∧
    min (x % 256) 127 ≤ 127 ∧
    min (x / 256 % 256) 127 ≤ 127 ∧
    convert_event ch MIDI_EVENT_CONTROL (200 * 256 + 1) =
      .ok (.channel ch (.control (.raw 1 127))) := by
  have hctl : ∀ p : Nat, convert_event ch MIDI_EVENT_CONTROL p =
      .ok (.channel ch (.control
        (.raw (min (p % 256) 127) (min (p / 256 % 256) 127)))) := fun _ => rfl
  refine ⟨rfl, by omega, min_le_right _ _, min_le_right _ _, ?_⟩
  rw [hctl (200 * 256 + 1)]
  norm_num

/-- Witness for `controlchange_decode` at a packed parameter with high
byte 200 and low byte 1. -/
theorem controlchange_decode_witness :
    convert_event 0 MIDI_EVENT_CONTROL (200 * 256 + 1) =
      .ok (.channel 0 (.control (.raw 1 127))) :=
  (controlchange_decode (200 * 256 + 1) 0 (by decide)).2.2.2.2

/-- Claim C8: `ClearSoundfonts` is observably identical to
`SetSoundfonts` with an empty identifier list, on both the channel-group
surface of `lib.rs` and the realtime surface of `realtime.rs`: the two
calls produce equal outcomes (same panic behaviour, same target, same
`SetSoundfonts([])` config event) and neither touches any registry
state. -/
theorem clearsoundfonts_eq_setsoundfonts_empty (groups : List XSynthGroup)
    (soundfonts : List Soundfont) (id : Nat) (handle : Option Nat) :
    XSynth_ChannelGroup_SetSoundfonts groups soundfonts id [] =
      XSynth_ChannelGroup_ClearSoundfonts groups id ∧
    XSynth_Realtime_SetSoundfonts soundfonts handle [] =
      XSynth_Realtime_ClearSoundfonts handle := by
  constructor
  · unfold XSynth_ChannelGroup_SetSoundfonts XSynth_ChannelGroup_ClearSoundfonts
    cases groups.find? (fun g => g.id == id) <;> rfl
  · unfold XSynth_Realtime_SetSoundfonts XSynth_Realtime_ClearSoundfonts sfids_to_vec
    cases handle <;> rfl

/-- Claim C9: `Remove(id)` removes exactly the entries carrying `id` and
keeps every other entry, unchanged and in order (the result is a sublist
of the original); when no entry carries `id` the registry is left
entirely unchanged — and no error is raised (both removers are total
functions with no panic outcome).  Stated for both the channel-group and
the soundfont registry. -/
theorem remove_is_exact_filter (groups : List XSynthGroup)
    (soundfonts : List Soundfont) (id : Nat) :
    (∀ g ∈ XSynth_ChannelGroup_Remove groups id, g.id ≠ id) ∧
    (XSynth_ChannelGroup_Remove groups id).Sublist groups ∧
    (∀ g ∈ groups, g.id ≠ id → g ∈ XSynth_ChannelGroup_Remove groups id) ∧
    ((∀ g ∈ groups, g.id ≠ id) → XSynth_ChannelGroup_Remove groups id = groups) ∧
    (∀ sf ∈ XSynth_Soundfont_Remove soundfonts id, sf.id ≠ id) ∧
    (XSynth_Soundfont_Remove soundfonts id).Sublist soundfonts ∧
    (∀ sf ∈ soundfonts, sf.id ≠ id → sf ∈ XSynth_Soundfont_Remove soundfonts id) ∧
    ((∀ sf ∈ soundfonts, sf.id ≠ id) → XSynth_Soundfont_Remove soundfonts id = soundfonts) := by
  refine ⟨?_, List.filter_sublist _, ?_, ?_, ?_, List.filter_sublist _, ?_, ?_⟩
  · intro g hg
    have := (List.mem_filter.mp hg).2
    simpa [bne_iff_ne] using this
  · intro g hg hne
    exact List.mem_filter.mpr ⟨hg, by simpa [bne_iff_ne] using hne⟩
  · intro h
    exact List.filter_eq_self.mpr fun g hg => by simpa [bne_iff_ne] using h g hg
  · intro sf hsf
    have := (List.mem_filter.mp hsf).2
    simpa [bne_iff_ne] using this
  · intro sf hsf hne
    exact List.mem_filter.mpr ⟨hsf, by simpa [bne_iff_ne] using hne⟩
  · intro h
    exact List.filter_eq_self.mpr fun sf hsf => by simpa [bne_iff_ne] using h sf hsf

/-- Witness for `remove_is_exact_filter`: removing the never-issued id 5
from a one-entry registry leaves it unchanged. -/
theorem remove_is_exact_filter_witness :
    XSynth_ChannelGroup_Remove [⟨0, 0⟩] 5 = [⟨0, 0⟩] :=
  (remove_is_exact_filter [⟨0, 0⟩] [] 5).2.2.2.1 (by decide)

/-- Claim C10: `XSynth_ChannelGroup_ReadSamples` with a null buffer
returns immediately — no panic, no engine read, and the registry is
returned unchanged — for every id, live or not, and every length. -/
theorem readsamples_null_noop (groups : List XSynthGroup)
    (id length : Nat) :
    XSynth_ChannelGroup_ReadSamples groups id none length =
      .ok (none, groups) :=
  rfl

/-- Below the counter maximum, `libCreateN n` issues exactly the ids
`0, …, n-1` in order and leaves `ID_COUNTER = n`. -/
theorem libCreateN_eq (n : Nat) (hn : n ≤ c_ulong_MAX) :
    libCreateN n =
      (⟨(List.range n).map (fun i => ⟨i, 0⟩), n⟩, List.range n) := by
  induction n with
  | zero => rfl
  | succ n ih =>
    have hlt : n < c_ulong_MAX := Nat.lt_of_succ_le hn
    have hnid : lib_next_id ((List.range n).map (fun i => ⟨i, 0⟩)) n =
        .ok (n, n + 1) := by
      unfold lib_next_id
      rw [if_neg (by simp; omega), if_neg (by omega)]
    have hstep : XSynth_ChannelGroup_Create
        ⟨(List.range n).map (fun i => ⟨i, 0⟩), n⟩ 0 =
        .ok (n, ⟨(List.range (n + 1)).map (fun i => ⟨i, 0⟩), n + 1⟩) := by
      simp only [XSynth_ChannelGroup_Create, hnid]
      simp [List.range_succ]
    simp only [libCreateN, ih (Nat.le_of_lt hlt), hstep, List.range_succ]

/-- Claim C6: starting from the empty registry with `ID_COUNTER = 0`,
`N` consecutive creates (for any `N` up to the counter maximum) return
the pairwise-distinct identifiers `[0, N)` exactly, the registry then
holds exactly those ids and the counter equals `N`; and below the
maximum a single allocation always returns the current counter value and
increments it. -/
theorem create_n_ids_are_range (n : Nat) (hn : n ≤ c_ulong_MAX) :
    (libCreateN n).2 = List.range n ∧
    ((libCreateN n).1.groups.map XSynthGroup.id) = List.range n ∧
    (libCreateN n).1.idCounter = n ∧
    (List.range n).Nodup ∧
    (∀ groups : List XSynthGroup, ∀ counter : Nat,
      groups.length < c_ulong_MAX → counter < c_ulong_MAX →
      lib_next_id groups counter = .ok (counter, counter + 1)) := by
  refine ⟨?_, ?_, ?_, List.nodup_range n, ?_⟩
  · rw [libCreateN_eq n hn]
  · rw [libCreateN_eq n hn]
    simp [List.map_map, Function.comp_def]
  · rw [libCreateN_eq n hn]
  · intro groups counter hlen hcnt
    unfold lib_next_id
    rw [if_neg (by omega), if_neg (by omega)]

/-- Witness for `create_n_ids_are_range`: three creates return the ids
`[0, 1, 2]`. -/
theorem create_n_ids_are_range_witness :
    (libCreateN 3).2 = List.range 3 :=
  (create_n_ids_are_range 3 (by decide)).1

/-- Below `MAX_ITEMS`, `sfLoadN n` issues exactly the ids `0, …, n-1` in
order and leaves the soundfont `ID_COUNTER = n`. -/
theorem sfLoadN_eq (n : Nat) (hn : n ≤ MAX_ITEMS) :
    sfLoadN n =
      (⟨(List.range n).map (fun i => ⟨i, 0⟩), n⟩, List.range n) := by
  induction n with
  | zero => rfl
  | succ n ih =>
    have hlt : n < MAX_ITEMS := Nat.lt_of_succ_le hn
    have hnid : sf_next_id ((List.range n).map (fun i => ⟨i, 0⟩)) n =
        .ok (n, n + 1) := by
      unfold sf_next_id
      rw [if_neg (by simp; omega), if_neg (by omega)]
    have hstep : XSynth_Soundfont_LoadNew
        ⟨(List.range n).map (fun i => ⟨i, 0⟩), n⟩ true (some 0) =
        .ok (n, ⟨(List.range (n + 1)).map (fun i => ⟨i, 0⟩), n + 1⟩) := by
      simp only [XSynth_Soundfont_LoadNew, hnid]
      simp [List.range_succ]
    simp only [sfLoadN, ih (Nat.le_of_lt hlt), hstep, List.range_succ]

/-- Allocation via `soundfont.rs::next_id` fails whenever the registry is full,
whatever the counter holds. -/
theorem sf_next_id_full (soundfonts : List Soundfont) (counter : Nat)
    (h : MAX_ITEMS ≤ soundfonts.length) :
    sf_next_id soundfonts counter = .error () := by
  unfold sf_next_id
  rw [if_pos h]

/-- A load attempt against a full soundfont registry reports the
capacity failure (and returns no new state, so nothing is inserted). -/
theorem LoadNew_full (st : SfState) (tok : Nat)
    (h : MAX_ITEMS ≤ st.soundfonts.length) :
    XSynth_Soundfont_LoadNew st true (some tok) =
      .error "Max number of soundfonts reached, cannot create more." := by
  unfold XSynth_Soundfont_LoadNew
  rw [sf_next_id_full st.soundfonts st.idCounter h]
  rfl

/-- The one-step unfolding of `sfLoadN`, stated for a symbolic argument
(so that instantiating it at a large literal does not unroll the
recursion). -/
theorem sfLoadN_succ (n : Nat) :
    sfLoadN (n + 1) =
      match XSynth_Soundfont_LoadNew (sfLoadN n).1 true (some 0) with
      | .ok (id, st2) => (st2, (sfLoadN n).2 ++ [id])
      | .error _ => sfLoadN n := by
  rw [sfLoadN]

/-- Claim C7: `MAX_ITEMS` soundfont loads succeed and fill the registry
with the distinct ids `[0, MAX_ITEMS)`; the `MAX_ITEMS + 1`-st load
attempt fails with the capacity error (`next_id` returns `Err` and
`XSynth_Soundfont_LoadNew` reports the "max number of soundfonts
reached" failure) and inserts nothing: the registry still holds exactly
`MAX_ITEMS` entries afterwards. -/
theorem soundfont_capacity_exceeded :
    (sfLoadN MAX_ITEMS).1.soundfonts.length = MAX_ITEMS ∧
    (sfLoadN MAX_ITEMS).2 = List.range MAX_ITEMS ∧
    sf_next_id (sfLoadN MAX_ITEMS).1.soundfonts
      (sfLoadN MAX_ITEMS).1.idCounter = .error () ∧
    XSynth_Soundfont_LoadNew (sfLoadN MAX_ITEMS).1 true (some 0) =
      .error "Max number of soundfonts reached, cannot create more." ∧
    sfLoadN (MAX_ITEMS + 1) = sfLoadN MAX_ITEMS ∧
    (sfLoadN (MAX_ITEMS + 1)).1.soundfonts.length = MAX_ITEMS := by
  have heq := sfLoadN_eq MAX_ITEMS le_rfl
  have hfull : MAX_ITEMS ≤ (sfLoadN MAX_ITEMS).1.soundfonts.length := by
    rw [heq]; simp
  have hload := LoadNew_full (sfLoadN MAX_ITEMS).1 0 hfull
  have h5 : sfLoadN (MAX_ITEMS + 1) = sfLoadN MAX_ITEMS := by
    rw [sfLoadN_succ MAX_ITEMS, hload]
  refine ⟨?_, ?_, sf_next_id_full _ _ hfull, hload, h5, ?_⟩
  · rw [heq]; simp
  · rw [heq]
  · rw [h5, heq]; simp

/-- Claim C1 counterexample: the boundary operations do NOT return an
error indicator on erroneous input — they abort.  At these concrete
erroneous inputs the outcome is the panic outcome (`Except.error` is the
model of `Rust panic`, i.e. process abort; none of these functions has
any error-return channel — `XSynth_ChannelGroup_VoiceCount` returns a
bare `c_ulong`, `XSynth_Soundfont_LoadNew` a bare `u64`). -/
theorem boundary_ops_abort_counterexample :
    XSynth_ChannelGroup_VoiceCount [] 0 (fun t => t) =
      .error "Group does not exist." ∧
    XSynth_Soundfont_LoadNew ⟨[], 0⟩ false none =
      .error "Error parsing soundfont path" ∧
    XSynth_Soundfont_LoadNew ⟨[], 0⟩ true none =
      .error "Error loading soundfont" ∧
    sfids_to_vec [] [0] = .error "Soundfont does not exist." ∧
    XSynth_ChannelGroup_SendEvent [] 0 0 MIDI_EVENT_NOTEON 0 =
      .error "Group does not exist." :=
  ⟨rfl, rfl, rfl, rfl, rfl⟩

/-- Claim C1 (amended): on every erroneous input, the cited boundary
operations abort the process via a panic (the `Except.error` outcome)
instead of returning an error indicator: an identifier not present in
the registry panics `VoiceCount` / `GetStreamParams` / `SendEvent` /
`SetSoundfonts` ("Group does not exist.") and `sfids_to_vec`
("Soundfont does not exist."); `XSynth_Soundfont_LoadNew` panics on an
unparseable path, on a soundfont the engine cannot load, and on a full
registry. -/
theorem boundary_ops_abort_on_error (groups : List XSynthGroup)
    (soundfonts : List Soundfont) (st : SfState)
    (id channel event params tok : Nat)
    (vc : Nat → Nat) (sp : Nat → XSynth_StreamParams)
    (hg : ∀ g ∈ groups, g.id ≠ id)
    (hs : ∀ sf ∈ soundfonts, sf.id ≠ id)
    (hfull : MAX_ITEMS ≤ st.soundfonts.length) :
    XSynth_ChannelGroup_VoiceCount groups id vc =
      .error "Group does not exist." ∧
    XSynth_ChannelGroup_GetStreamParams groups id sp =
      .error "Group does not exist." ∧
    XSynth_ChannelGroup_SendEvent groups id channel event params =
      .error "Group does not exist." ∧
    XSynth_ChannelGroup_SetSoundfonts groups soundfonts id [] =
      .error "Group does not exist." ∧
    sfids_to_vec soundfonts [id] = .error "Soundfont does not exist." ∧
    (∀ r, XSynth_Soundfont_LoadNew st false r =
      .error "Error parsing soundfont path") ∧
    XSynth_Soundfont_LoadNew st true none =
      .error "Error loading soundfont" ∧
    XSynth_Soundfont_LoadNew st true (some tok) =
      .error "Max number of soundfonts reached, cannot create more." := by
  have hg2 : groups.find? (fun g => g.id == id) = none :=
    List.find?_eq_none.mpr fun g hmem => by simpa using hg g hmem
  have hs2 : soundfonts.find? (fun sf => sf.id == id) = none :=
    List.find?_eq_none.mpr fun sf hmem => by simpa using hs sf hmem
  refine ⟨?_, ?_, ?_, ?_, ?_, fun r => rfl, rfl, LoadNew_full st tok hfull⟩
  · simp only [XSynth_ChannelGroup_VoiceCount, hg2]
  · simp only [XSynth_ChannelGroup_GetStreamParams, hg2]
  · simp only [XSynth_ChannelGroup_SendEvent, hg2]
  · simp only [XSynth_ChannelGroup_SetSoundfonts, hg2]
  · unfold sfids_to_vec
    rw [List.mapM_cons, hs2]
    rfl

/-- Witness for `boundary_ops_abort_on_error`: a lookup of the stale id
0 in a registry holding only id 1 aborts with the panic outcome. -/
theorem boundary_ops_abort_on_error_witness :
    XSynth_ChannelGroup_VoiceCount [⟨1, 5⟩] 0 (fun t => t) =
      .error "Group does not exist." :=
  (boundary_ops_abort_on_error [⟨1, 5⟩] [] ⟨(List.range MAX_ITEMS).map
      (fun i => ⟨i, 0⟩), 0⟩ 0 0 0 0 0 (fun t => t) (fun _ => ⟨44100, 2⟩)
    (by decide) (by decide) (by simp)).1

/-- Claim C2 counterexample: the event value 10 lies outside the ten
defined kinds, yet no `InvalidEvent` error reaches the caller: the codec
`convert_event` panics (aborts) with "Unexpected MIDI event.", the
realtime `SendEvent` therefore aborts as well, and the legacy
`XSynth_ChannelGroup_SendEvent` returns successfully having silently
dropped the event (`ok none`: nothing sent, nothing signalled). -/
theorem invalid_event_kind_counterexample :
    10 ∉ midiEventKinds ∧
    convert_event 0 10 0 = .error "Unexpected MIDI event." ∧
    XSynth_Realtime_SendEvent (some 0) 0 10 0 =
      .error "Unexpected MIDI event." ∧
    XSynth_ChannelGroup_SendEvent [⟨0, 0⟩] 0 0 10 0 = .ok none :=
  ⟨by decide, rfl, rfl, rfl⟩

/-- Claim C2 (amended): for every event kind value outside the defined
set, `convert_event` panics (aborts) with "Unexpected MIDI event." — so
a realtime `SendEvent` with that kind aborts, whatever the handle —
while the legacy `XSynth_ChannelGroup_SendEvent` of `lib.rs` silently
ignores the unknown kind: once the group id resolves, it returns
normally without sending any event and without signalling anything. -/
theorem invalid_event_kind_amended (event : Nat)
    (hev : event ∉ midiEventKinds) (channel params : Nat)
    (handle : Option Nat) (groups : List XSynthGroup) (id : Nat)
    (g : XSynthGroup) (hfind : groups.find? (fun g2 => g2.id == id) = some g) :
    convert_event channel event params = .error "Unexpected MIDI event." ∧
    XSynth_Realtime_SendEvent handle channel event params =
      .error "Unexpected MIDI event." ∧
    XSynth_ChannelGroup_SendEvent groups id channel event params =
      .ok none := by
  simp only [midiEventKinds, List.mem_cons, List.not_mem_nil, or_false,
    not_or] at hev
  obtain ⟨h0, h1, h2, h3, h4, h5, h6, h7, h8, h9⟩ := hev
  have hconv : convert_event channel event params =
      .error "Unexpected MIDI event." := by
    unfold convert_event
    rw [if_neg h0, if_neg h1, if_neg h3, if_neg h2, if_neg h4, if_neg h6,
      if_neg h5, if_neg h7, if_neg h8, if_neg h9]
  refine ⟨hconv, ?_, ?_⟩
  · simp only [XSynth_Realtime_SendEvent, hconv]
  · simp only [XSynth_ChannelGroup_SendEvent, hfind]
    rw [if_neg h0, if_neg h1, if_neg h3, if_neg h2, if_neg h4, if_neg h6,
      if_neg h5, if_neg h7]

/-- Witness for `invalid_event_kind_amended`: the out-of-set kind 10
sent to the live group id 3 is silently dropped. -/
theorem invalid_event_kind_amended_witness :
    XSynth_ChannelGroup_SendEvent [⟨3, 7⟩] 3 0 10 0 = .ok none :=
  (invalid_event_kind_amended 10 (by decide) 0 0 none [⟨3, 7⟩] 3 ⟨3, 7⟩
    (by decide)).2.2

/-- The invariant of the soundfont registry: ids are pairwise distinct
and every id lies strictly below the allocation counter. -/
def SfInv (st : SfState) : Prop :=
  (st.soundfonts.map Soundfont.id).Nodup ∧
  ∀ sf ∈ st.soundfonts, sf.id < st.idCounter

/-- Whenever `soundfont.rs::next_id` succeeds from a state whose ids all
lie below the counter, the issued id is fresh, lies below the new
counter, and the counter does not decrease. -/
theorem sf_next_id_ok (soundfonts : List Soundfont) (counter i c2 : Nat)
    (hlt : ∀ sf ∈ soundfonts, sf.id < counter)
    (h : sf_next_id soundfonts counter = .ok (i, c2)) :
    (∀ sf ∈ soundfonts, sf.id ≠ i) ∧ i < c2 ∧ counter ≤ c2 := by
  unfold sf_next_id at h
  by_cases hfull : soundfonts.length ≥ MAX_ITEMS
  · rw [if_pos hfull] at h
    exact absurd h (by simp)
  · rw [if_neg hfull] at h
    by_cases hsat : counter ≥ MAX_ITEMS
    · rw [if_pos hsat] at h
      cases hfind : (List.range MAX_ITEMS).find?
          (fun j => !(soundfonts.any (fun g => g.id == j))) with
      | none =>
        rw [hfind] at h
        exact absurd h (by simp)
      | some j =>
        rw [hfind] at h
        obtain ⟨rfl, rfl⟩ : j = i ∧ counter = c2 := by simpa using h
        have hp := List.find?_some hfind
        have hj : j < MAX_ITEMS :=
          List.mem_range.mp (List.mem_of_find?_eq_some hfind)
        refine ⟨?_, lt_of_lt_of_le hj hsat, le_rfl⟩
        intro sf hsf heq
        have hany : soundfonts.any (fun g => g.id == j) = true :=
          List.any_eq_true.mpr ⟨sf, hsf, by simp [heq]⟩
        simp [hany] at hp
    · rw [if_neg hsat] at h
      obtain ⟨rfl, rfl⟩ : counter = i ∧ counter + 1 = c2 := by simpa using h
      exact ⟨fun sf hsf => Nat.ne_of_lt (hlt sf hsf),
        Nat.lt_succ_self _, Nat.le_succ _⟩

/-- A load whose path fails to parse leaves the registry untouched. -/
theorem sfStep_load_badpath (st : SfState) (r : Option Nat) :
    sfStep st (.load false r) = st :=
  rfl

/-- A load whose external factory fails leaves the registry
untouched. -/
theorem sfStep_load_badload (st : SfState) :
    sfStep st (.load true none) = st :=
  rfl

/-- A fully successful load step appends the freshly allocated id (or
leaves the registry untouched when allocation fails). -/
theorem sfStep_load_ok (st : SfState) (tok : Nat) :
    sfStep st (.load true (some tok)) =
      match sf_next_id st.soundfonts st.idCounter with
      | .ok (i, c2) => ⟨st.soundfonts ++ [⟨i, tok⟩], c2⟩
      | .error _ => st := by
  cases h : sf_next_id st.soundfonts st.idCounter with
  | ok p =>
    obtain ⟨i, c2⟩ := p
    simp [sfStep, XSynth_Soundfont_LoadNew, h]
  | error e =>
    simp [sfStep, XSynth_Soundfont_LoadNew, h]

/-- Every single soundfont-registry operation preserves the
invariant. -/
theorem sfStep_inv (st : SfState) (op : SfOp) (h : SfInv st) :
    SfInv (sfStep st op) := by
  obtain ⟨hnd, hlt⟩ := h
  cases op with
  | removeAll =>
    exact ⟨List.nodup_nil, by simp [sfStep, XSynth_Soundfont_RemoveAll]⟩
  | remove id =>
    constructor
    · have hsub : (XSynth_Soundfont_Remove st.soundfonts id).Sublist
          st.soundfonts := List.filter_sublist _
      exact List.Nodup.sublist (hsub.map Soundfont.id) hnd
    · intro sf hsf
      exact hlt sf (List.mem_of_mem_filter hsf)
  | load pathOk r =>
    cases pathOk with
    | false => exact ⟨hnd, hlt⟩
    | true =>
      cases r with
      | none => exact ⟨hnd, hlt⟩
      | some tok =>
        rw [sfStep_load_ok st tok]
        cases hnid : sf_next_id st.soundfonts st.idCounter with
        | error e => exact ⟨hnd, hlt⟩
        | ok p =>
          obtain ⟨i, c2⟩ := p
          obtain ⟨hne, hic2, hcc2⟩ :=
            sf_next_id_ok st.soundfonts st.idCounter i c2 hlt hnid
          constructor
          · have hmap : List.map Soundfont.id (st.soundfonts ++ [⟨i, tok⟩]) =
                List.map Soundfont.id st.soundfonts ++ [i] := by simp
            rw [hmap]
            refine List.Nodup.append hnd (List.nodup_singleton i) ?_
            intro a ha hb
            rw [List.mem_singleton] at hb
            subst hb
            obtain ⟨sf, hsf, hid⟩ := List.mem_map.mp ha
            exact hne sf hsf hid
          · intro sf hsf
            rcases List.mem_append.mp hsf with hmem | hmem
            · exact lt_of_lt_of_le (hlt sf hmem) hcc2
            · rw [List.mem_singleton] at hmem
              subst hmem
              exact hic2
    
/-- The invariant holds along any run of the soundfont registry. -/
theorem foldl_sfStep_inv (ops : List SfOp) (st : SfState) (h : SfInv st) :
    SfInv (ops.foldl sfStep st) := by
  induction ops generalizing st with
  | nil => exact h
  | cons op ops ih => exact ih _ (sfStep_inv st op h)

/-- Claim C3 (amended): for the soundfont registry, after every sequence
of load / remove operations from the initial state the live entries hold
pairwise distinct identifiers — including after the counter has
saturated, because the free-id scan of `soundfont.rs::next_id` covers
the whole range `[0, MAX_ITEMS)`.  (For the channel-group registry of
`lib.rs` the property fails: its scan covers only `[0, GROUPS.len())`
and falls through to the id `0` when it finds no gap — see the
counterexample.) -/
theorem sf_registry_ids_distinct (ops : List SfOp) :
    ((sfRun ops).soundfonts.map Soundfont.id).Nodup :=
  (foldl_sfStep_inv ops ⟨[], 0⟩ ⟨List.nodup_nil, by simp⟩).1

/-- While the `GROUPS` counter is below `c_ulong::MAX`, a create from
the canonical state appends the counter value as the new id. -/
theorem create_step_below_max (n : Nat) (hlt : n < c_ulong_MAX) :
    XSynth_ChannelGroup_Create
      ⟨(List.range n).map (fun i => ⟨i, 0⟩), n⟩ 0 =
      .ok (n, ⟨(List.range (n + 1)).map (fun i => ⟨i, 0⟩), n + 1⟩) := by
  have hnid : lib_next_id ((List.range n).map (fun i => ⟨i, 0⟩)) n =
      .ok (n, n + 1) := by
    unfold lib_next_id
    rw [if_neg (by simp; omega), if_neg (by omega)]
  simp only [XSynth_ChannelGroup_Create, hnid]
  simp [List.range_succ]

/-- After `n ≤ c_ulong::MAX` creates from the initial state, `GROUPS`
holds the ids `0, …, n-1` in order and `ID_COUNTER = n`. -/
theorem libRun_replicate_create (n : Nat) (hn : n ≤ c_ulong_MAX) :
    (List.replicate n LibOp.create).foldl libStep ⟨[], 0⟩ =
      ⟨(List.range n).map (fun i => ⟨i, 0⟩), n⟩ := by
  induction n with
  | zero => rfl
  | succ n ih =>
    have hlt : n < c_ulong_MAX := Nat.lt_of_succ_le hn
    rw [List.replicate_succ', List.foldl_append, ih (Nat.le_of_lt hlt)]
    simp only [List.foldl_cons, List.foldl_nil, libStep,
      create_step_below_max n hlt]

/-- Removing the id `m` from the canonical table `{0, …, m}` leaves
exactly `{0, …, m-1}`. -/
theorem filter_ne_last (m : Nat) :
    ((List.range (m + 1)).map (fun i => (⟨i, 0⟩ : XSynthGroup))).filter
      (fun g => g.id != m) = (List.range m).map (fun i => ⟨i, 0⟩) := by
  have h1 : ((List.range m).map (fun i => (⟨i, 0⟩ : XSynthGroup))).filter
      (fun g => g.id != m) = (List.range m).map (fun i => ⟨i, 0⟩) := by
    refine List.filter_eq_self.mpr ?_
    intro g hg
    obtain ⟨i, hi, rfl⟩ := List.mem_map.mp hg
    have : i < m := List.mem_range.mp hi
    simp only [bne_iff_ne, ne_eq]
    omega
  rw [List.range_succ, List.map_append, List.filter_append, h1]
  simp

/-- The free-id scan of `lib.rs::next_id` over `0..GROUPS.len()` finds
nothing when the table holds exactly the ids `0, …, m-1`. -/
theorem scan_finds_none (m : Nat) :
    (List.range m).find? (fun i =>
      !(((List.range m).map (fun j => (⟨j, 0⟩ : XSynthGroup))).any
        (fun g => g.id == i))) = none := by
  refine List.find?_eq_none.mpr ?_
  intro i hi
  have hany : ((List.range m).map (fun j => (⟨j, 0⟩ : XSynthGroup))).any
      (fun g => g.id == i) = true :=
    List.any_eq_true.mpr ⟨⟨i, 0⟩, List.mem_map.mpr ⟨i, hi, rfl⟩, by simp⟩
  simp [hany]

/-- Once the counter has saturated and the table holds exactly
`{0, …, m-1}` with `m < c_ulong::MAX`, the scan of `lib.rs::next_id`
falls through and a create appends a SECOND entry with id `0`. -/
theorem create_step_saturated (m c : Nat) (hm : m < c_ulong_MAX)
    (hc : c_ulong_MAX ≤ c) :
    XSynth_ChannelGroup_Create
      ⟨(List.range m).map (fun i => ⟨i, 0⟩), c⟩ 0 =
      .ok (0, ⟨(List.range m).map (fun i => ⟨i, 0⟩) ++ [⟨0, 0⟩], c⟩) := by
  have hlen : ((List.range m).map
      (fun i => (⟨i, 0⟩ : XSynthGroup))).length = m := by simp
  have hnid : lib_next_id ((List.range m).map (fun i => ⟨i, 0⟩)) c =
      .ok (0, c) := by
    unfold lib_next_id
    rw [if_neg (by rw [hlen]; omega), if_pos (by omega)]
    rw [hlen, scan_finds_none m]
  simp only [XSynth_ChannelGroup_Create, hnid]

/-- After filling the table, removing the top id and creating once more
appends a duplicate of id `0`. -/
theorem last_two_steps (m : Nat) (h1 : m + 1 = c_ulong_MAX) :
    libStep (libStep ⟨(List.range (m + 1)).map (fun i => ⟨i, 0⟩), m + 1⟩
        (.remove m)) .create =
      ⟨(List.range m).map (fun i => ⟨i, 0⟩) ++ [⟨0, 0⟩], m + 1⟩ := by
  have hrem : libStep ⟨(List.range (m + 1)).map (fun i => ⟨i, 0⟩), m + 1⟩
      (.remove m) = ⟨(List.range m).map (fun i => ⟨i, 0⟩), m + 1⟩ := by
    simp only [libStep, XSynth_ChannelGroup_Remove, filter_ne_last m]
  rw [hrem]
  have hm : m < c_ulong_MAX := by omega
  simp only [libStep, create_step_saturated m (m + 1) hm (le_of_eq h1.symm)]

/-- The operation sequence of the counterexample: fill the id space
until the counter saturates, remove the top id `c_ulong::MAX - 1`, then
create once more. -/
def c3_ops : List LibOp :=
  List.replicate c_ulong_MAX .create ++ [.remove (c_ulong_MAX - 1), .create]

/-- Claim C3 counterexample: a sequence of create / remove operations on
the channel-group registry of `lib.rs` after which `GROUPS` holds two
entries with the same id.  Once `ID_COUNTER` has saturated, `next_id`
scans only `0..GROUPS.len()` — here exactly the occupied ids
`{0, …, c_ulong::MAX − 2}` — finds no gap, falls through to its trailing
`0` expression, and the create duplicates the live id `0`. -/
theorem group_ids_collide_after_saturation :
    ¬ (((libRun c3_ops).groups.map XSynthGroup.id).Nodup) := by
  have h64 : c_ulong_MAX = 18446744073709551615 := by
    norm_num [c_ulong_MAX]
  have hmax : (c_ulong_MAX - 1) + 1 = c_ulong_MAX := by omega
  have hstate : libRun c3_ops =
      ⟨(List.range (c_ulong_MAX - 1)).map (fun i => ⟨i, 0⟩) ++ [⟨0, 0⟩],
        c_ulong_MAX⟩ := by
    have hfinal := last_two_steps (c_ulong_MAX - 1) hmax
    rw [hmax] at hfinal
    unfold c3_ops libRun
    rw [List.foldl_append, libRun_replicate_create c_ulong_MAX le_rfl]
    rw [List.foldl_cons, List.foldl_cons, List.foldl_nil]
    exact hfinal
  rw [hstate]
  intro hnd
  rw [List.map_append] at hnd
  have hdisj := List.disjoint_of_nodup_append hnd
  have h0left : (0 : Nat) ∈ ((List.range (c_ulong_MAX - 1)).map
      (fun i => (⟨i, 0⟩ : XSynthGroup))).map XSynthGroup.id := by
    rw [List.map_map]
    exact List.mem_map.mpr ⟨0, List.mem_range.mpr (by omega), rfl⟩
  have h0right : (0 : Nat) ∈
      ([(⟨0, 0⟩ : XSynthGroup)].map XSynthGroup.id) := by simp
  exact hdisj h0left h0right
